import Mathlib

/-!
# Verification of the ADB SMS helper (`src/main.py`)

A shallow embedding of the command-line tool in `src/main.py`, which checks
for a connected Android device via the `adb` bridge and then issues one
SMS-composer intent per recipient.  Python string operations are modelled
over `List Char` / `String`; the two subprocess invocations are modelled by
abstract outcome types (`AdbDevicesOutcome`, `BridgeOutcome`) supplied as
environment parameters, and the observable behaviour of a run (exit code,
dispatched intents, sleep count, summary) is collected in `MainResult`.
-/

namespace PyzSms

/-- Python ASCII whitespace, as stripped by `str.strip()` (restricted to the
ASCII range, which covers every string this program manipulates). -/
def isPySpace (c : Char) : Bool :=
  c = ' ' || c = '\t' || c = '\n' || c = '\r' || c = '\x0b' || c = '\x0c'

/-- `str.strip()` on the character list: drop leading and trailing whitespace. -/
def pyStripL (l : List Char) : List Char :=
  List.rdropWhile isPySpace (List.dropWhile isPySpace l)

/-- Python `s.strip()`. -/
def pyStrip (s : String) : String :=
  ⟨pyStripL s.data⟩

/-- Helper for `pySplit`: accumulate the current (reversed) chunk while
scanning for the separator.  Models CPython's `str.split(sep)` loop, which
keeps empty chunks. -/
def pySplitAux (sep : Char) : List Char → List Char → List (List Char)
  | cur, [] => [cur.reverse]
  | cur, c :: rest =>
    if c = sep then cur.reverse :: pySplitAux sep [] rest
    else pySplitAux sep (c :: cur) rest

/-- Python `s.split(sep)` for a one-character separator: empty chunks are
kept (`"a,".split(',') == ["a", ""]`). -/
def pySplit (sep : Char) (s : String) : List String :=
  (pySplitAux sep [] s.data).map fun l => ⟨l⟩

/-- Python's substring test `needle in haystack`, on character lists. -/
def containsL (needle : List Char) : List Char → Bool
  | [] => needle.isEmpty
  | c :: rest => needle.isPrefixOf (c :: rest) || containsL needle rest

/-- Python `needle in haystack` on strings. -/
def pyContains (needle haystack : String) : Bool :=
  containsL needle.data haystack.data

/-- Python `haystack.endswith(suffix)`; used only to state the spec's
"ends with the ready-state marker" reading of device-line filtering. -/
def pyEndsWith (suffix : String) (haystack : String) : Bool :=
  List.isSuffixOf suffix.data haystack.data

/-- Python `s.lower()` (ASCII). -/
def pyLower (s : String) : String :=
  ⟨s.data.map Char.toLower⟩

/-! ## Device-list parsing (`AdbSmsHelper.check_device_connection`) -/

/-- Outcome of the `subprocess.run([adb, 'devices'], ..., check=True, timeout=10)`
call: normal completion with captured stdout, executable missing
(`FileNotFoundError`), non-zero exit (`CalledProcessError`, because of
`check=True`), or `TimeoutExpired`. -/
inductive AdbDevicesOutcome where
  | ok (stdout : String)
  | fileNotFound
  | calledProcessError (stderr : String)
  | timedOut
  deriving DecidableEq, Repr

/-- The per-line filter of `check_device_connection`:
`line.strip() and "\tdevice" in line`. -/
def isConnectedDeviceLine (line : String) : Bool :=
  pyStrip line ≠ "" && pyContains "\tdevice" line

/-- `connected_devices` as computed from the captured stdout:
`result.stdout.strip().split('\n')`, discard the first (header) line, keep
lines passing `isConnectedDeviceLine`. -/
def connectedDevices (stdout : String) : List String :=
  let device_lines := pySplit '\n' (pyStrip stdout)
  (device_lines.drop 1).filter isConnectedDeviceLine

/-- `AdbSmsHelper.check_device_connection`: `True` exactly when the run
completed and at least one connected-device line was parsed; every handled
exception returns `False`. -/
def checkDeviceConnection : AdbDevicesOutcome → Bool
  | .ok stdout => !(connectedDevices stdout).isEmpty
  | .fileNotFound => false
  | .calledProcessError _ => false
  | .timedOut => false

/-! ## Intent dispatch (`AdbSmsHelper.send_sms_intent`) -/

/-- An external invocation: the discrete argument vector handed to the
subprocess machinery and the timeout (in seconds) of the blocking wait. -/
structure Invocation where
  argv : List String
  timeoutSecs : Nat
  deriving DecidableEq, Repr

/-- The `adb devices` invocation of `check_device_connection`
(`subprocess.run([adb_path, 'devices'], ..., timeout=10)`). -/
def devicesInvocation (adb_path : String) : Invocation :=
  ⟨[adb_path, "devices"], 10⟩

/-- The `am start` command vector built in `send_sms_intent`:
`[adb_path, 'shell', 'am', 'start', '-a', 'android.intent.action.SENDTO',
'-d', f'sms:{phone_number}', '--es', 'sms_body', message,
'--ez', 'exit_on_sent', 'true']`. -/
def sendCommand (adb_path phone_number message : String) : List String :=
  [adb_path, "shell", "am", "start",
   "-a", "android.intent.action.SENDTO",
   "-d", "sms:" ++ phone_number,
   "--es", "sms_body", message,
   "--ez", "exit_on_sent", "true"]

/-- The dispatch invocation: the `Popen(command, ...)` spawn together with
the `process.communicate(timeout=15)` wait. -/
def sendInvocation (adb_path phone_number message : String) : Invocation :=
  ⟨sendCommand adb_path phone_number message, 15⟩

/-- Outcome of `process.communicate(timeout=15)` on the spawned bridge
process: normal completion with a return code and captured streams,
`TimeoutExpired`, or any other exception (the final `except Exception`
branch). -/
inductive BridgeOutcome where
  | completed (returncode : Int) (stdout stderr : String)
  | timedOut
  | raised (msg : String)
  deriving DecidableEq, Repr

/-- Observable result of one `send_sms_intent` call: the returned boolean,
the stderr text surfaced in the failure message (if any), and whether the
code invoked `kill`/`terminate` on the child process.  No branch of
`send_sms_intent` calls `process.kill()` or `process.terminate()`, so
`killInvoked` is `false` in every case. -/
structure SendResult where
  ok : Bool
  surfacedStderr : Option String
  killInvoked : Bool
  deriving DecidableEq, Repr

/-- `AdbSmsHelper.send_sms_intent`, as a function of the communicate
outcome: `True` on return code 0; otherwise `False`, printing
`stderr.strip()` when stderr is non-empty; `False` on `TimeoutExpired`
(without killing the child) and on any other exception. -/
def sendSmsIntent : BridgeOutcome → SendResult
  | .completed returncode _ stderr =>
    if returncode = 0 then ⟨true, none, false⟩
    else if stderr ≠ "" then ⟨false, some (pyStrip stderr), false⟩
    else ⟨false, none, false⟩
  | .timedOut => ⟨false, none, false⟩
  | .raised _ => ⟨false, none, false⟩

/-! ## Recipient parsing -/

/-- Interactive-mode recipient parsing (`run_interactive_mode`, line 126):
`[num.strip() for num in recipient_input.split(',') if num.strip()]`. -/
def parseRecipients (s : String) : List String :=
  (pySplit ',' s).filterMap fun num =>
    if pyStrip num = "" then none else some (pyStrip num)

/-- Direct-mode recipient parsing (`main`, line 171):
`[num.strip() for num in args.numbers.split(',')]` — note: no filter. -/
def parseRecipientsDirect (s : String) : List String :=
  (pySplit ',' s).map pyStrip

/-- The parsing the spec describes: the whitespace-trimmed, non-empty
substrings between commas, in their original order. -/
def specParsedRecipients (s : String) : List String :=
  ((pySplit ',' s).map pyStrip).filter fun t => t ≠ ""

/-! ## Interactive mode (`run_interactive_mode`)

The two `while True:` prompt loops consume successive `input()` lines; we
model each loop as structural recursion over the (finite) list of available
input lines, returning `none` when input is exhausted (in Python that would
raise an uncaught `EOFError`, i.e. not a completed run). -/

/-- The first prompt loop: strip the line; blank input re-prompts; parsed
recipient list must be non-empty, otherwise re-prompt. -/
def promptRecipients : List String → Option (List String)
  | [] => none
  | line :: rest =>
    let recipient_input := pyStrip line
    if recipient_input = "" then promptRecipients rest
    else
      let recipient_numbers := parseRecipients recipient_input
      if recipient_numbers.isEmpty then promptRecipients rest
      else some recipient_numbers

/-- The second prompt loop: strip the line; blank input re-prompts. -/
def promptMessage : List String → Option String
  | [] => none
  | line :: rest =>
    let message_text := pyStrip line
    if message_text = "" then promptMessage rest
    else some message_text

/-- `run_interactive_mode`: recipients from the first loop, message from
the second. -/
def runInteractiveMode (numIn msgIn : List String) :
    Option (List String × String) :=
  match promptRecipients numIn, promptMessage msgIn with
  | some recipient_numbers, some message_text =>
    some (recipient_numbers, message_text)
  | _, _ => none

/-! ## `main` -/

/-- The parsed command-line flags.  `none` models an absent flag
(`argparse` default `None`). -/
structure Args where
  numbers : Option String
  message : Option String
  delay : Nat
  deriving DecidableEq, Repr

/-- Python truthiness of an `Optional[str]` flag: `None` and `""` are
falsy. -/
def truthyOpt : Option String → Bool
  | none => false
  | some s => s ≠ ""

/-- The input-selection branch of `main` (line 169):
`if args.numbers and args.message:` use the flags, else prompt. -/
def chooseInputs (args : Args) (numIn msgIn : List String) :
    Option (List String × String) :=
  if truthyOpt args.numbers && truthyOpt args.message then
    some (parseRecipientsDirect (args.numbers.getD ""), args.message.getD "")
  else
    runInteractiveMode numIn msgIn

/-- The `for i, number in enumerate(recipient_numbers):` dispatch loop,
starting from index `i` with `total = total_sends`.  `bridge i` is the
boolean returned by `helper.send_sms_intent` for the `i`-th call.  Returns
the dispatched `(number, message)` pairs in call order, the value of
`successful_sends`, and the number of `time.sleep` pauses entered
(`if i < total_sends - 1:`). -/
def dispatchLoop (bridge : Nat → Bool) (message : String) (total : Nat) :
    List String → Nat → List (String × String) × Nat × Nat
  | [], _ => ([], 0, 0)
  | number :: rest, i =>
    let ok := bridge i
    let r := dispatchLoop bridge message total rest (i + 1)
    ((number, message) :: r.1,
     (if ok then 1 else 0) + r.2.1,
     (if i < total - 1 then 1 else 0) + r.2.2)

/-- The end-of-run summary: `successful_sends` of `total_sends`, and the
"Failed to initiate" line printed exactly when
`successful_sends < total_sends` (carrying `total_sends - successful_sends`). -/
structure Summary where
  succeeded : Nat
  total : Nat
  failedLine : Option Nat
  deriving DecidableEq, Repr

/-- Observable result of a completed run of `main`: the process exit code,
the dispatched intents in order, the number of inter-recipient sleeps, and
the summary (present only when the dispatch loop was reached). -/
structure MainResult where
  exitCode : Int
  dispatched : List (String × String)
  sleepCount : Nat
  summary : Option Summary
  deriving DecidableEq, Repr

/-- `main`, as a function of the environment: the parsed flags, the outcome
of the `adb devices` check, the interactive input lines for the two
prompts, the confirmation line (`none` = input exhausted), and the bridge
outcome of each `send_sms_intent` call by call index.  Returns `none` for a
run aborted by an uncaught exception (exhausted input), otherwise the
observable result. -/
def mainRun (args : Args) (devOut : AdbDevicesOutcome)
    (numIn msgIn : List String) (confirm : Option String)
    (outcomes : Nat → BridgeOutcome) : Option MainResult :=
  if checkDeviceConnection devOut = false then
    some ⟨1, [], 0, none⟩
  else
    match chooseInputs args numIn msgIn with
    | none => none
    | some (recipient_numbers, message_text) =>
      match confirm with
      | none => none
      | some c =>
        if pyLower (pyStrip c) ≠ "y" then
          some ⟨0, [], 0, none⟩
        else
          let total_sends := recipient_numbers.length
          let bridge := fun i => (sendSmsIntent (outcomes i)).ok
          let r := dispatchLoop bridge message_text total_sends
            recipient_numbers 0
          some ⟨0, r.1, r.2.2,
            some ⟨r.2.1, total_sends,
              if r.2.1 < total_sends then some (total_sends - r.2.1)
              else none⟩⟩

/-! ## Helper lemmas -/

theorem pyStripL_idem (l : List Char) : pyStripL (pyStripL l) = pyStripL l := by
  unfold pyStripL
  have h1 : List.dropWhile isPySpace (List.dropWhile isPySpace l) =
      List.dropWhile isPySpace l := List.dropWhile_idempotent _ _
  have h2 : List.dropWhile isPySpace
      (List.rdropWhile isPySpace (List.dropWhile isPySpace l)) =
      List.rdropWhile isPySpace (List.dropWhile isPySpace l) := by
    rcases hpre : List.rdropWhile isPySpace (List.dropWhile isPySpace l) with
      _ | ⟨a, t⟩
    · rfl
    · obtain ⟨t2, ht2⟩ :=
        List.rdropWhile_prefix isPySpace (List.dropWhile isPySpace l)
      rw [hpre] at ht2
      have hself : List.dropWhile isPySpace ((a :: t) ++ t2) = (a :: t) ++ t2 := by
        rw [ht2]; exact h1
      have ha : ¬ isPySpace (((a :: t) ++ t2).get ⟨0, by simp⟩) :=
        List.dropWhile_eq_self_iff.mp hself (by simp)
      have ha2 : ¬ isPySpace a = true := by simpa using ha
      exact List.dropWhile_cons_of_neg ha2
  rw [h2, List.rdropWhile_idempotent]

theorem pyStrip_idem (s : String) : pyStrip (pyStrip s) = pyStrip s := by
  simp [pyStrip, pyStripL_idem]

theorem pySplitAux_ne_nil (sep : Char) :
    ∀ (l cur : List Char), pySplitAux sep cur l ≠ [] := by
  intro l
  induction l with
  | nil => intro cur; simp [pySplitAux]
  | cons c rest ih =>
    intro cur
    by_cases hc : c = sep <;> simp [pySplitAux, hc, ih]

theorem pySplit_ne_nil (sep : Char) (s : String) : pySplit sep s ≠ [] := by
  simp [pySplit, pySplitAux_ne_nil]

theorem parseRecipientsDirect_ne_nil (s : String) :
    parseRecipientsDirect s ≠ [] := by
  simp [parseRecipientsDirect, pySplit_ne_nil]

theorem filterMap_strip_eq (l : List String) :
    (l.filterMap fun num =>
        if pyStrip num = "" then none else some (pyStrip num)) =
      (l.map pyStrip).filter fun t => t ≠ "" := by
  induction l with
  | nil => rfl
  | cons a t ih =>
    by_cases h : pyStrip a = "" <;>
      simp [List.filterMap_cons, List.filter_cons, h, ih]

theorem promptRecipients_ne_nil :
    ∀ (numIn : List String) (ns : List String),
      promptRecipients numIn = some ns → ns ≠ [] := by
  intro numIn
  induction numIn with
  | nil => intro ns h; simp [promptRecipients] at h
  | cons line rest ih =>
    intro ns h
    simp only [promptRecipients] at h
    by_cases h1 : pyStrip line = ""
    · rw [if_pos h1] at h; exact ih ns h
    · rw [if_neg h1] at h
      by_cases h2 : (parseRecipients (pyStrip line)).isEmpty
      · rw [if_pos h2] at h; exact ih ns h
      · rw [if_neg h2] at h
        cases h
        simpa [List.isEmpty_iff] using h2

theorem promptMessage_stripped :
    ∀ (msgIn : List String) (m : String),
      promptMessage msgIn = some m → m ≠ "" ∧ pyStrip m = m := by
  intro msgIn
  induction msgIn with
  | nil => intro m h; simp [promptMessage] at h
  | cons line rest ih =>
    intro m h
    simp only [promptMessage] at h
    by_cases h1 : pyStrip line = ""
    · rw [if_pos h1] at h; exact ih m h
    · rw [if_neg h1] at h
      cases h
      exact ⟨h1, pyStrip_idem line⟩

theorem runInteractiveMode_spec (numIn msgIn : List String)
    (ns : List String) (m : String)
    (h : runInteractiveMode numIn msgIn = some (ns, m)) :
    ns ≠ [] ∧ m ≠ "" ∧ pyStrip m = m := by
  unfold runInteractiveMode at h
  rcases h1 : promptRecipients numIn with _ | ns'
  · rw [h1] at h; simp at h
  · rcases h2 : promptMessage msgIn with _ | m'
    · rw [h1, h2] at h; simp at h
    · rw [h1, h2] at h
      simp only [Option.some.injEq, Prod.mk.injEq] at h
      obtain ⟨rfl, rfl⟩ := h
      exact ⟨promptRecipients_ne_nil numIn ns' h1,
        (promptMessage_stripped msgIn m' h2).1,
        (promptMessage_stripped msgIn m' h2).2⟩

theorem dispatchLoop_eq (bridge : Nat → Bool) (message : String) :
    ∀ (rest : List String) (i total : Nat), i + rest.length = total →
      dispatchLoop bridge message total rest i =
        (rest.map (fun n => (n, message)),
         (List.range' i rest.length).countP bridge,
         rest.length - 1) := by
  intro rest
  induction rest with
  | nil => intro i total h; simp [dispatchLoop]
  | cons number r ih =>
    intro i total h
    have hr : (i + 1) + r.length = total := by
      simp only [List.length_cons] at h; omega
    simp only [dispatchLoop, ih (i + 1) total hr, List.map_cons,
      List.length_cons, List.range'_succ, List.countP_cons, Prod.mk.injEq]
    refine ⟨trivial, ?_, ?_⟩
    · cases hb : bridge i <;> simp [hb, Nat.add_comm]
    · simp only [List.length_cons] at h
      split_ifs with hc <;> omega

theorem mainRun_eq_of_noDevice (args : Args) {devOut : AdbDevicesOutcome}
    (numIn msgIn : List String) (confirm : Option String)
    (outcomes : Nat → BridgeOutcome)
    (hdev : checkDeviceConnection devOut = false) :
    mainRun args devOut numIn msgIn confirm outcomes =
      some ⟨1, [], 0, none⟩ := by
  unfold mainRun
  rw [hdev]
  simp

theorem mainRun_eq_none_inputs (args : Args) (devOut : AdbDevicesOutcome)
    (numIn msgIn : List String) (confirm : Option String)
    (outcomes : Nat → BridgeOutcome)
    (hdev : checkDeviceConnection devOut = true)
    (hci : chooseInputs args numIn msgIn = none) :
    mainRun args devOut numIn msgIn confirm outcomes = none := by
  unfold mainRun
  rw [hdev, hci]
  simp

theorem mainRun_eq_none_confirm (args : Args) (devOut : AdbDevicesOutcome)
    (numIn msgIn : List String) (outcomes : Nat → BridgeOutcome)
    (recipients : List String) (message : String)
    (hdev : checkDeviceConnection devOut = true)
    (hci : chooseInputs args numIn msgIn = some (recipients, message)) :
    mainRun args devOut numIn msgIn none outcomes = none := by
  unfold mainRun
  rw [hdev, hci]
  simp

theorem mainRun_eq_cancel (args : Args) (devOut : AdbDevicesOutcome)
    (numIn msgIn : List String) (outcomes : Nat → BridgeOutcome)
    (recipients : List String) (message : String) (c : String)
    (hdev : checkDeviceConnection devOut = true)
    (hci : chooseInputs args numIn msgIn = some (recipients, message))
    (hcy : ¬ pyLower (pyStrip c) = "y") :
    mainRun args devOut numIn msgIn (some c) outcomes =
      some ⟨0, [], 0, none⟩ := by
  unfold mainRun
  rw [hdev, hci]
  simp [hcy]

theorem mainRun_eq_dispatch (args : Args) (devOut : AdbDevicesOutcome)
    (numIn msgIn : List String) (outcomes : Nat → BridgeOutcome)
    (recipients : List String) (message : String) (c : String)
    (hdev : checkDeviceConnection devOut = true)
    (hci : chooseInputs args numIn msgIn = some (recipients, message))
    (hcy : pyLower (pyStrip c) = "y") :
    mainRun args devOut numIn msgIn (some c) outcomes =
      some ⟨0,
        (dispatchLoop (fun i => (sendSmsIntent (outcomes i)).ok) message
          recipients.length recipients 0).1,
        (dispatchLoop (fun i => (sendSmsIntent (outcomes i)).ok) message
          recipients.length recipients 0).2.2,
        some ⟨(dispatchLoop (fun i => (sendSmsIntent (outcomes i)).ok)
            message recipients.length recipients 0).2.1,
          recipients.length,
          if (dispatchLoop (fun i => (sendSmsIntent (outcomes i)).ok)
              message recipients.length recipients 0).2.1 <
              recipients.length then
            some (recipients.length -
              (dispatchLoop (fun i => (sendSmsIntent (outcomes i)).ok)
                message recipients.length recipients 0).2.1)
          else none⟩⟩ := by
  unfold mainRun
  rw [hdev, hci]
  simp [hcy]

/-! ## Claim theorems -/

/-- C1: `send_sms_intent` returns `True` iff the bridge command exits with
code zero; it returns `False` (a value, never an exception — the model is a
total function) when the bridge exits non-zero, times out, or raises; and
on a non-zero exit with non-empty captured stderr, the surfaced error text
is that stderr (as printed, whitespace-stripped). -/
theorem sendSmsIntent_success_iff_exit_zero (returncode : Int)
    (stdout stderr : String) (hrc : returncode ≠ 0) (hse : stderr ≠ "") :
    (∀ rc : Int, ∀ out err : String,
      ((sendSmsIntent (.completed rc out err)).ok = true ↔ rc = 0)) ∧
    (sendSmsIntent BridgeOutcome.timedOut).ok = false ∧
    (∀ m : String, (sendSmsIntent (.raised m)).ok = false) ∧
    (sendSmsIntent (.completed returncode stdout stderr)).surfacedStderr =
      some (pyStrip stderr) := by
  refine ⟨?_, rfl, fun m => rfl, ?_⟩
  · intro rc out err
    by_cases h : rc = 0
    · simp [sendSmsIntent, h]
    · simp [sendSmsIntent, h]
      split_ifs <;> rfl
  · simp [sendSmsIntent, hrc, hse]

/-- Witness for C1 at return code 1 and stderr `"  boom "`. -/
theorem sendSmsIntent_success_iff_exit_zero_witness :
    (1 : Int) ≠ 0 ∧ ("  boom " : String) ≠ "" ∧
    (sendSmsIntent (.completed 1 "" "  boom ")).surfacedStderr =
      some (pyStrip "  boom ") :=
  ⟨by decide, by decide,
    (sendSmsIntent_success_iff_exit_zero 1 "" "  boom " (by decide)
      (by decide)).2.2.2⟩

/-- C2 counterexample: the code tests `"\tdevice" in line` (containment),
not an ends-with test, so the non-blank line
`"emulator-5554\tdevice junk"` is counted as a ready device even though it
does not end with the ready-state marker. -/
theorem connectedDevices_endswith_counterexample :
    connectedDevices "List of devices attached\nemulator-5554\tdevice junk" =
      ["emulator-5554\tdevice junk"] ∧
    pyEndsWith "\tdevice" "emulator-5554\tdevice junk" = false ∧
    pyEndsWith "device" "emulator-5554\tdevice junk" = false := by
  refine ⟨by decide, by decide, by decide⟩

/-- C2 amended: after discarding the header line, a non-blank line is
counted ready iff it CONTAINS the ready-state marker `"\tdevice"`; the two
concrete lines from the claim behave as stated. -/
theorem connectedDevices_marker_containment (stdout line : String) :
    (line ∈ connectedDevices stdout ↔
      line ∈ (pySplit '\n' (pyStrip stdout)).drop 1 ∧
        pyStrip line ≠ "" ∧ pyContains "\tdevice" line = true) ∧
    connectedDevices "List of devices attached\nemulator-5554\tdevice" =
      ["emulator-5554\tdevice"] ∧
    connectedDevices "List of devices attached\nemulator-5554\tunauthorized" =
      [] := by
  refine ⟨?_, by decide, by decide⟩
  simp [connectedDevices, List.mem_filter, isConnectedDeviceLine,
    Bool.and_eq_true, and_assoc]

/-- C3 counterexample: `--numbers` flag parsing (`main`, line 171) trims
but does not discard blank entries, so `"+1,  +2 ,"` parses to
`["+1", "+2", ""]`, not to the claimed `["+1", "+2"]`. -/
theorem parseRecipients_direct_counterexample :
    parseRecipientsDirect "+1,  +2 ," = ["+1", "+2", ""] ∧
    specParsedRecipients "+1,  +2 ," = ["+1", "+2"] ∧
    parseRecipientsDirect "+1,  +2 ," ≠ specParsedRecipients "+1,  +2 ," := by
  refine ⟨by decide, by decide, by decide⟩

/-- C3 amended: interactive-prompt parsing yields exactly the
whitespace-trimmed non-empty substrings between commas, in order; flag
parsing yields the trimmed substrings in order but RETAINS blank entries
(its non-blank entries, in order, are the spec's list). -/
theorem parseRecipients_amended (s : String) :
    parseRecipients s = specParsedRecipients s ∧
    parseRecipientsDirect s = (pySplit ',' s).map pyStrip ∧
    (parseRecipientsDirect s).filter (fun t => t ≠ "") =
      specParsedRecipients s := by
  refine ⟨?_, rfl, rfl⟩
  simpa [parseRecipients, specParsedRecipients] using
    filterMap_strip_eq (pySplit ',' s)

/-- C8 counterexample: the `TimeoutExpired` handler of `send_sms_intent`
only prints and returns `False`; it never calls `process.kill()` or
`process.terminate()`, so no attempt is made to terminate the child. -/
theorem sendSmsIntent_timeout_kill_counterexample :
    ¬ ((sendSmsIntent BridgeOutcome.timedOut).killInvoked = true) := by
  decide

/-- C8 amended: when the dispatch invocation exceeds its timeout bound,
`send_sms_intent` returns failure (`False`) without raising, but does NOT
attempt to terminate the spawned child process. -/
theorem sendSmsIntent_timeout_amended :
    (sendSmsIntent BridgeOutcome.timedOut).ok = false ∧
    (sendSmsIntent BridgeOutcome.timedOut).killInvoked = false :=
  ⟨rfl, rfl⟩

/-- C9: the dispatch command is the discrete argument vector with the fixed
SENDTO action, the URI `sms:<number>`, the message verbatim as the single
`sms_body` string-extra argument, and the `exit_on_sent` boolean extra set
to `true`; the device-list invocation uses a 10-second timeout and the
dispatch invocation a 15-second one. -/
theorem sendInvocation_spec (adb_path phone_number message : String) :
    (sendInvocation adb_path phone_number message).argv =
      [adb_path, "shell", "am", "start",
       "-a", "android.intent.action.SENDTO",
       "-d", "sms:" ++ phone_number,
       "--es", "sms_body", message,
       "--ez", "exit_on_sent", "true"] ∧
    (sendInvocation adb_path phone_number message).timeoutSecs = 15 ∧
    (devicesInvocation adb_path).argv = [adb_path, "devices"] ∧
    (devicesInvocation adb_path).timeoutSecs = 10 :=
  ⟨rfl, rfl, rfl, rfl⟩

/-- C5: for a non-empty recipient list of length N, the dispatch loop calls
`send_sms_intent` exactly once per recipient in list order — for every
bridge behaviour, so failed sends do not abort the loop — and enters the
inter-recipient sleep exactly N-1 times. -/
theorem dispatchLoop_once_per_recipient (bridge : Nat → Bool)
    (message : String) (recipients : List String) (_h : recipients ≠ []) :
    (dispatchLoop bridge message recipients.length recipients 0).1 =
      recipients.map (fun n => (n, message)) ∧
    (dispatchLoop bridge message recipients.length recipients 0).2.2 =
      recipients.length - 1 := by
  rw [dispatchLoop_eq bridge message recipients 0 recipients.length
    (by omega)]
  exact ⟨rfl, rfl⟩

/-- Witness for C5: two recipients, a bridge that fails both sends —
two dispatch calls in order, one sleep. -/
theorem dispatchLoop_once_per_recipient_witness :
    (["+1", "+2"] : List String) ≠ [] ∧
    ((dispatchLoop (fun _ => false) "hi"
        (["+1", "+2"] : List String).length ["+1", "+2"] 0).1 =
      (["+1", "+2"] : List String).map (fun n => (n, "hi")) ∧
     (dispatchLoop (fun _ => false) "hi"
        (["+1", "+2"] : List String).length ["+1", "+2"] 0).2.2 =
      (["+1", "+2"] : List String).length - 1) :=
  ⟨by decide,
   dispatchLoop_once_per_recipient (fun _ => false) "hi" ["+1", "+2"]
     (by decide)⟩

/-- C7: a completed run exits 1 exactly when the device check failed, and
every completed run exits 0 or 1 — so cancellation at the confirmation
prompt also exits 0. -/
theorem mainRun_exit_code (args : Args) (devOut : AdbDevicesOutcome)
    (numIn msgIn : List String) (confirm : Option String)
    (outcomes : Nat → BridgeOutcome) (r : MainResult)
    (h : mainRun args devOut numIn msgIn confirm outcomes = some r) :
    (r.exitCode = 1 ↔ checkDeviceConnection devOut = false) ∧
    (r.exitCode = 0 ∨ r.exitCode = 1) := by
  unfold mainRun at h
  split at h
  case isTrue hc =>
    simp only [Option.some.injEq] at h
    subst h
    simp [hc]
  case isFalse hc =>
    split at h
    · simp at h
    · split at h
      · simp at h
      · split at h
        · simp only [Option.some.injEq] at h
          subst h
          simp_all
        · simp only [Option.some.injEq] at h
          subst h
          simp_all

/-- Witness for C7 at a run with the bridge executable missing. -/
theorem mainRun_exit_code_witness :
    ((⟨1, [], 0, none⟩ : MainResult).exitCode = 1 ↔
      checkDeviceConnection AdbDevicesOutcome.fileNotFound = false) ∧
    ((⟨1, [], 0, none⟩ : MainResult).exitCode = 0 ∨
     (⟨1, [], 0, none⟩ : MainResult).exitCode = 1) :=
  mainRun_exit_code ⟨none, none, 7⟩ .fileNotFound [] [] none
    (fun _ => .timedOut) ⟨1, [], 0, none⟩ (by decide)

/-- C10: when either flag is absent or supplied as the empty string, the
run is identical to a run with no flags at all — the program falls back to
interactive prompting and the flag values are never parsed or used. -/
theorem mainRun_flag_fallback (args : Args) (devOut : AdbDevicesOutcome)
    (numIn msgIn : List String) (confirm : Option String)
    (outcomes : Nat → BridgeOutcome)
    (h : (truthyOpt args.numbers && truthyOpt args.message) = false) :
    mainRun args devOut numIn msgIn confirm outcomes =
      mainRun ⟨none, none, args.delay⟩ devOut numIn msgIn confirm outcomes := by
  unfold mainRun chooseInputs
  rw [h]
  simp [truthyOpt]

/-- Witness for C10 with `--numbers` supplied as the empty string. -/
theorem mainRun_flag_fallback_witness :
    ((truthyOpt (some "") && truthyOpt (some "hi")) = false) ∧
    mainRun ⟨some "", some "hi", 7⟩ .fileNotFound [] [] none
        (fun _ => .timedOut) =
      mainRun ⟨none, none, 7⟩ .fileNotFound [] [] none
        (fun _ => .timedOut) :=
  ⟨by decide,
   mainRun_flag_fallback ⟨some "", some "hi", 7⟩ .fileNotFound [] [] none
     (fun _ => .timedOut) (by decide)⟩

/-- C6: whenever a completed run reaches the summary, it reports
`S of N` successfully initiated, where `S` counts the calls whose bridge
outcome yields success and `N` is the number of dispatched intents, and it
emits the failed line carrying `N - S` exactly when `S < N`; in particular
the two-recipient run with a bridge succeeding on both reports 2 of 2 with
no failed line. -/
theorem mainRun_summary_counts (args : Args) (devOut : AdbDevicesOutcome)
    (numIn msgIn : List String) (confirm : Option String)
    (outcomes : Nat → BridgeOutcome) (r : MainResult) (s : Summary)
    (h : mainRun args devOut numIn msgIn confirm outcomes = some r)
    (hs : r.summary = some s) :
    (s.succeeded = (List.range s.total).countP
        (fun i => (sendSmsIntent (outcomes i)).ok) ∧
     s.total = r.dispatched.length ∧
     s.failedLine =
       if s.succeeded < s.total then some (s.total - s.succeeded)
       else none) ∧
    mainRun ⟨some "+155501,+155502", some "hi", 0⟩
        (.ok "List of devices attached\nemulator-5554\tdevice")
        [] [] (some "y") (fun _ => .completed 0 "" "") =
      some ⟨0, [("+155501", "hi"), ("+155502", "hi")], 1,
        some ⟨2, 2, none⟩⟩ := by
  refine ⟨?_, by decide⟩
  cases hdev : checkDeviceConnection devOut with
  | false =>
    rw [mainRun_eq_of_noDevice args numIn msgIn confirm outcomes hdev] at h
    simp only [Option.some.injEq] at h
    subst h
    simp at hs
  | true =>
    rcases hci : chooseInputs args numIn msgIn with _ | ⟨recipients, message⟩
    · rw [mainRun_eq_none_inputs args devOut numIn msgIn confirm outcomes
        hdev hci] at h
      simp at h
    · rcases confirm with _ | c
      · rw [mainRun_eq_none_confirm args devOut numIn msgIn outcomes
          recipients message hdev hci] at h
        simp at h
      · by_cases hcy : pyLower (pyStrip c) = "y"
        · rw [mainRun_eq_dispatch args devOut numIn msgIn outcomes
            recipients message c hdev hci hcy] at h
          simp only [Option.some.injEq] at h
          subst h
          simp only [Option.some.injEq] at hs
          subst hs
          rw [dispatchLoop_eq (fun i => (sendSmsIntent (outcomes i)).ok)
            message recipients 0 recipients.length (by omega)]
          simp [List.range_eq_range']
        · rw [mainRun_eq_cancel args devOut numIn msgIn outcomes
            recipients message c hdev hci hcy] at h
          simp only [Option.some.injEq] at h
          subst h
          simp at hs

/-- Witness for C6 at the concrete two-recipient run from the claim. -/
theorem mainRun_summary_counts_witness :
    ((⟨2, 2, none⟩ : Summary).succeeded =
        (List.range (⟨2, 2, none⟩ : Summary).total).countP
          (fun i => (sendSmsIntent
            ((fun _ => BridgeOutcome.completed 0 "" "") i)).ok) ∧
      (⟨2, 2, none⟩ : Summary).total =
        (⟨0, [("+155501", "hi"), ("+155502", "hi")], 1,
          some ⟨2, 2, none⟩⟩ : MainResult).dispatched.length ∧
      (⟨2, 2, none⟩ : Summary).failedLine =
        if (⟨2, 2, none⟩ : Summary).succeeded <
            (⟨2, 2, none⟩ : Summary).total then
          some ((⟨2, 2, none⟩ : Summary).total -
            (⟨2, 2, none⟩ : Summary).succeeded)
        else none) ∧
    mainRun ⟨some "+155501,+155502", some "hi", 0⟩
        (.ok "List of devices attached\nemulator-5554\tdevice")
        [] [] (some "y") (fun _ => .completed 0 "" "") =
      some ⟨0, [("+155501", "hi"), ("+155502", "hi")], 1,
        some ⟨2, 2, none⟩⟩ :=
  mainRun_summary_counts ⟨some "+155501,+155502", some "hi", 0⟩
    (.ok "List of devices attached\nemulator-5554\tdevice")
    [] [] (some "y") (fun _ => .completed 0 "" "")
    ⟨0, [("+155501", "hi"), ("+155502", "hi")], 1, some ⟨2, 2, none⟩⟩
    ⟨2, 2, none⟩ (by decide) (by decide)

/-- C4 counterexample: in direct (flag) mode a whitespace-only `--message`
value is truthy in Python, so it is neither trimmed nor rejected — the run
dispatches an intent whose message is empty after trimming. -/
theorem mainRun_whitespace_message_counterexample :
    pyStrip "   " = "" ∧
    mainRun ⟨some "+1", some "   ", 7⟩
        (.ok "List of devices attached\nemulator-5554\tdevice")
        [] [] (some "y") (fun _ => .completed 0 "" "") =
      some ⟨0, [("+1", "   ")], 0, some ⟨1, 1, none⟩⟩ :=
  ⟨by decide, by decide⟩

/-- C4 amended: the rejection of empty inputs holds on the interactive
path — in any completed interactive-mode run every dispatched message is
non-empty after trimming (the prompt loops re-ask until the trimmed message
and the parsed recipient list are non-empty); in direct mode the parsed
recipient list is never empty, but a whitespace-only message is not
rejected. -/
theorem mainRun_input_validation_amended (args : Args)
    (devOut : AdbDevicesOutcome) (numIn msgIn : List String)
    (confirm : Option String) (outcomes : Nat → BridgeOutcome)
    (r : MainResult)
    (h : mainRun args devOut numIn msgIn confirm outcomes = some r)
    (hmode : (truthyOpt args.numbers && truthyOpt args.message) = false) :
    (∀ p ∈ r.dispatched, p.2 ≠ "" ∧ pyStrip p.2 = p.2) ∧
    (∀ t : String, parseRecipientsDirect t ≠ []) := by
  refine ⟨?_, parseRecipientsDirect_ne_nil⟩
  cases hdev : checkDeviceConnection devOut with
  | false =>
    rw [mainRun_eq_of_noDevice args numIn msgIn confirm outcomes hdev] at h
    simp only [Option.some.injEq] at h
    subst h
    intro p hp
    simp at hp
  | true =>
    rcases hri : runInteractiveMode numIn msgIn with _ | ⟨ns, m⟩
    · have hci : chooseInputs args numIn msgIn = none := by
        unfold chooseInputs
        rw [hmode]
        simpa using hri
      rw [mainRun_eq_none_inputs args devOut numIn msgIn confirm outcomes
        hdev hci] at h
      simp at h
    · have hci : chooseInputs args numIn msgIn = some (ns, m) := by
        unfold chooseInputs
        rw [hmode]
        simpa using hri
      obtain ⟨hns, hm1, hm2⟩ := runInteractiveMode_spec numIn msgIn ns m hri
      rcases confirm with _ | c
      · rw [mainRun_eq_none_confirm args devOut numIn msgIn outcomes
          ns m hdev hci] at h
        simp at h
      · by_cases hcy : pyLower (pyStrip c) = "y"
        · rw [mainRun_eq_dispatch args devOut numIn msgIn outcomes
            ns m c hdev hci hcy] at h
          simp only [Option.some.injEq] at h
          subst h
          intro p hp
          rw [dispatchLoop_eq (fun i => (sendSmsIntent (outcomes i)).ok)
            m ns 0 ns.length (by omega)] at hp
          simp only [List.mem_map] at hp
          obtain ⟨n, _, rfl⟩ := hp
          exact ⟨hm1, hm2⟩
        · rw [mainRun_eq_cancel args devOut numIn msgIn outcomes
            ns m c hdev hci hcy] at h
          simp only [Option.some.injEq] at h
          subst h
          intro p hp
          simp at hp

/-- Witness for C4 amended at a completed interactive run. -/
theorem mainRun_input_validation_amended_witness :
    ((truthyOpt (none : Option String) &&
        truthyOpt (none : Option String)) = false) ∧
    ((∀ p ∈ (⟨0, [("+1", "hello")], 0, some ⟨1, 1, none⟩⟩ :
        MainResult).dispatched, p.2 ≠ "" ∧ pyStrip p.2 = p.2) ∧
     (∀ t : String, parseRecipientsDirect t ≠ [])) :=
  ⟨by decide,
   mainRun_input_validation_amended ⟨none, none, 7⟩
     (.ok "List of devices attached\nemulator-5554\tdevice")
     ["+1"] ["hello"] (some "y") (fun _ => .completed 0 "" "")
     ⟨0, [("+1", "hello")], 0, some ⟨1, 1, none⟩⟩
     (by decide) (by decide)⟩

end PyzSms
